import Mathlib

/-!
Verification development for the geoblender DEM-prep pipeline
(src/DEM-prep/DEM_prep.py, src/DEM-prep/sentinel.py).

The Python source is shallowly embedded in Lean:
machine floats are modelled by exact rational arithmetic (ℚ),
numpy NaN is modelled by an explicit Option layer (none = NaN / no-data),
and fallible code returns an explicit result type (PyResult) whose
exception constructors mirror the Python exceptions that the code raises.
Network and file-system effects of the Sentinel client are modelled by an
explicit event trace.
-/

namespace Geoblender

/-! ## ImageFitSizer: fit_to_sentinel_limit (sentinel.py lines 34-56)

Python source:

  def fit_to_sentinel_limit(width, height, max_pixels=10_000_000, max_dim=2500):
      dim_scale = min(1.0, max_dim / width, max_dim / height)
      w = int(width * dim_scale)
      h = int(height * dim_scale)
      pixels = w * h
      if pixels > max_pixels:
          px_scale = (max_pixels / pixels) ** 0.5
          w = int(w * px_scale)
          h = int(h * px_scale)
      return max(1, w), max(1, h)

Embedding notes.
The floats are modelled by exact rational arithmetic.
Stage 1: dim_scale = min(1, max_dim/width, max_dim/height); the minimum is 1
exactly when width ≤ max_dim and height ≤ max_dim, and otherwise it equals
max_dim / max width height.  int(width * dim_scale) is the floor of a
non-negative value, and for naturals floor (width * md / M) is natural
division (width * md) / M.
Stage 2: px_scale = sqrt (max_pixels / pixels), and
int (w * sqrt (mp / px)) = floor (sqrt (w^2 * mp / px))
                         = floor (sqrt (w^2 * mp * px) / px)
                         = (Nat.sqrt (w * w * mp * px)) / px
using floor (x / q) = floor (floor x / q) for a positive natural q.
When width = 0 or height = 0 the Python expression max_dim / width
(or max_dim / height) raises ZeroDivisionError, which the embedding
returns as none. -/

def fitStage1 (width height max_dim : ℕ) : ℕ × ℕ :=
  if width ≤ max_dim ∧ height ≤ max_dim then (width, height)
  else (width * max_dim / max width height, height * max_dim / max width height)

def fitStage2 (w h max_pixels : ℕ) : ℕ × ℕ :=
  let pixels := w * h
  if max_pixels < pixels then
    (Nat.sqrt (w * w * max_pixels * pixels) / pixels,
     Nat.sqrt (h * h * max_pixels * pixels) / pixels)
  else (w, h)

def fit_to_sentinel_limit (width height max_pixels max_dim : ℕ) : Option (ℕ × ℕ) :=
  if width = 0 ∨ height = 0 then none
  else
    let p1 := fitStage1 width height max_dim
    let p2 := fitStage2 p1.1 p1.2 max_pixels
    some (max 1 p2.1, max 1 p2.2)

/-! ## Python exception / result model

The Python code raises RuntimeError with fixed messages, the requests
library raises HTTPError on a rejected token exchange, rasterio raises
ValueError from rasterize, and an out-of-range list index raises
IndexError.  Messages are modelled by tags: degenerateRange stands for
the string DEM has zero elevation range, missingCredentials for the
string Missing Sentinel credentials. Set SH_CLIENT_ID and
SH_CLIENT_SECRET., and noValidGeometry for the rasterio message
No valid geometry objects found for rasterize. -/

inductive PyMsg where
  | degenerateRange
  | missingCredentials
  | noValidGeometry
deriving DecidableEq

/-- Structured content of the RuntimeError string built by
raise_sentinel_error (sentinel.py lines 208-250): the HTTP status and
reason, the JSON-decoded body when response.json() succeeds (else the
raw text truncated to 2000 characters), and the request context taken
from the payload: bbox, output width and output height. -/
structure SentinelErrorInfo where
  status : ℕ
  reason : String
  decodedJson : Option String
  rawBody : Option String
  bbox : ℚ × ℚ × ℚ × ℚ
  width : ℕ
  height : ℕ
deriving DecidableEq

inductive PyExn where
  | indexError
  | zeroDivisionError
  | runtimeError (msg : PyMsg)
  | valueError (msg : PyMsg)
  | httpError (status : ℕ)
  | sentinelError (info : SentinelErrorInfo)
deriving DecidableEq

inductive PyResult (α : Type) where
  | ok (value : α)
  | exn (e : PyExn)
deriving DecidableEq

/-! ## Numpy float semantics used by the Normalizer

Pixel values are numpy float32; the embedding uses exact rationals.
A no-data pixel is turned into NaN by np.where(dem == nodata, np.nan, dem)
(DEM_prep.py lines 243-244 and 280-281); the embedding represents a pixel
as Option ℚ with none standing for NaN.  np.clip (lo before hi) is
min hi (max lo x), and astype to an unsigned integer type truncates
toward zero; its inputs here are clipped to be non-negative, so the
truncation is the floor (NaN cast to an unsigned integer yields 0 on the
platforms this script targets, matching the output no-data sentinel the
code records). -/

def clip (lo hi x : ℚ) : ℚ := min hi (max lo x)

def astypeUint (x : ℚ) : ℕ := (⌊x⌋).toNat

def validVals (px : List (Option ℚ)) : List ℚ := px.filterMap id

/-- np.nanmin: minimum over the non-NaN values; none when every value is
NaN (numpy returns NaN for an all-NaN slice). -/
def listMin : List ℚ → Option ℚ
  | [] => none
  | x :: xs =>
    some (match listMin xs with
          | none => x
          | some m => min x m)

/-- np.nanmax: maximum over the non-NaN values; none for an all-NaN slice. -/
def listMax : List ℚ → Option ℚ
  | [] => none
  | x :: xs =>
    some (match listMax xs with
          | none => x
          | some m => max x m)

def insertSorted (x : ℚ) : List ℚ → List ℚ
  | [] => [x]
  | y :: ys => if x ≤ y then x :: y :: ys else y :: insertSorted x ys

def sortQ (l : List ℚ) : List ℚ := l.foldr insertSorted []

/-- np.nanpercentile with the default linear interpolation: on the sorted
non-NaN values xs of length n, the q-th percentile is
xs[i] + frac * (xs[i+1] - xs[i]) where i = floor(pos), frac = pos - i and
pos = q / 100 * (n - 1).  Returns none (NaN) for an all-NaN input; the
guard 0 ≤ q ≤ 100 mirrors the numpy domain check, and q is always inside
it at the call sites in this repository. -/
def nanpercentile (px : List (Option ℚ)) (q : ℚ) : Option ℚ :=
  let xs := sortQ (validVals px)
  match xs with
  | [] => none
  | _ =>
    if q < 0 ∨ 100 < q then none
    else
      let n : ℕ := xs.length
      let pos : ℚ := q / 100 * ((n : ℚ) - 1)
      let i : ℕ := (⌊pos⌋).toNat
      let frac : ℚ := pos - (i : ℚ)
      let lo := xs.getD i 0
      let hi := xs.getD (i + 1) lo
      some (lo + frac * (hi - lo))

/-- numpy float equality used by the check if vmin == vmax
(DEM_prep.py line 290): NaN compares unequal to everything, NaN included. -/
def nanEq : Option ℚ → Option ℚ → Bool
  | some a, some b => a == b
  | _, _ => false

/-! ## Normalizer: export_rendered_dem and export_rendered_dem_uint16
(DEM_prep.py lines 237-262 and 264-308)

Both functions read band 1 of the input raster, turn the no-data value
into NaN, compute a stretch range (vmin, vmax), linearly rescale, cast to
an unsigned integer type and write the result with nodata=0 in the output
profile.  The embedding maps a list of pixels (none = NaN) to the pair
(output pixel list, output no-data sentinel).

The 16-bit function (percentile_clip optional, default None):
  vmin, vmax     = nanpercentile(dem, percentile_clip)  or  nanmin/nanmax
  raises RuntimeError when vmin == vmax
  dem_norm       = (dem - vmin) / (vmax - vmin)
  dem_uint16     = clip(dem_norm * 65535, 0, 65535).astype(uint16)

The 8-bit function (percentile_clip required):
  vmin, vmax     = nanpercentile(dem, percentile_clip)
  no degenerate-range check
  dem_norm       = clip((dem - vmin) / (vmax - vmin), 0, 1)
  dem_8bit       = (dem_norm * 255).astype(uint8)

In the 8-bit function, when vmax == vmin the numpy float division yields
NaN for a numerator of zero (cast to 0) and a signed infinity otherwise,
which np.clip sends to the interval bound: 1 for positive, 0 for
negative. -/

def stretchRange (px : List (Option ℚ)) (percentile_clip : Option (ℚ × ℚ)) :
    Option ℚ × Option ℚ :=
  match percentile_clip with
  | some (lo, hi) => (nanpercentile px lo, nanpercentile px hi)
  | none => (listMin (validVals px), listMax (validVals px))

def px16 (vmin vmax : ℚ) : Option ℚ → ℕ
  | none => 0
  | some v => astypeUint (clip 0 65535 ((v - vmin) / (vmax - vmin) * 65535))

def export_rendered_dem_uint16 (px : List (Option ℚ))
    (percentile_clip : Option (ℚ × ℚ)) : PyResult (List ℕ × ℕ) :=
  let s := stretchRange px percentile_clip
  if nanEq s.1 s.2 then .exn (.runtimeError .degenerateRange)
  else
    match s with
    | (some vmin, some vmax) => .ok (px.map (px16 vmin vmax), 0)
    | _ => .ok (px.map (fun _ => 0), 0)

def px8 (vmin vmax : ℚ) : Option ℚ → ℕ
  | none => 0
  | some v =>
    if vmax = vmin then
      if v = vmin then 0
      else if vmin < v then 255
      else 0
    else astypeUint (clip 0 1 ((v - vmin) / (vmax - vmin)) * 255)

def export_rendered_dem (px : List (Option ℚ)) (percentile_clip : ℚ × ℚ) :
    PyResult (List ℕ × ℕ) :=
  match nanpercentile px percentile_clip.1, nanpercentile px percentile_clip.2 with
  | some vmin, some vmax => .ok (px.map (px8 vmin vmax), 0)
  | _, _ => .ok (px.map (fun _ => 0), 0)

/-- The quantization formula exactly as the specification words it:
round(clip((value - vmin) / (vmax - vmin), 0, 1) * (2 ^ outBits - 1)).
Stated from the spec sentence, to be compared with the code embedding. -/
def specQuantizeValue (vmin vmax v : ℚ) (outBits : ℕ) : ℤ :=
  round (clip 0 1 ((v - vmin) / (vmax - vmin)) * ((2 : ℚ) ^ outBits - 1))

/-! ## Raster data model

A rasterio profile: width, height, CRS, affine transform, dtype, band
count and optional no-data value.  The six affine coefficients and the
CRS are carried exactly; pixel buffers are modelled as functions from
band, row and column to a rational sample. -/

structure Affine where
  a : ℚ
  b : ℚ
  c : ℚ
  d : ℚ
  e : ℚ
  f : ℚ
deriving DecidableEq

inductive Dtype where
  | float32
  | uint8
  | uint16
deriving DecidableEq

structure Profile where
  width : ℕ
  height : ℕ
  crs : String
  transform : Affine
  dtype : Dtype
  count : ℕ
  nodata : Option ℚ
deriving DecidableEq

structure RasterDS where
  profile : Profile
  data : ℕ → ℕ → ℕ → ℚ

/-! ## MosaicBuilder: merge_dem_tiles (DEM_prep.py lines 131-150)

  def merge_dem_tiles(tile_paths, out_tif):
      srcs = [rasterio.open(t) for t in tile_paths]
      mosaic, transform = merge(srcs)
      profile = srcs[0].profile.copy()
      profile.update(height=..., width=..., transform=transform)
      ...

Neither this function nor rasterio.merge.merge checks for an empty input:
rasterio.merge reads datasets[0] before anything else, and the profile
line above reads srcs[0]; on an empty list either access raises
IndexError.  The mosaic computation itself is the rasterio collaborator,
passed in as rasterioMerge (it returns the merged buffer, the union
transform and the output height and width). -/

def merge_dem_tiles (tiles : List RasterDS)
    (rasterioMerge : RasterDS → List RasterDS → (ℕ → ℕ → ℕ → ℚ) × Affine × ℕ × ℕ) :
    PyResult RasterDS :=
  match tiles with
  | [] => .exn .indexError
  | t :: ts =>
    let m := rasterioMerge t ts
    .ok { profile := { t.profile with
                         height := m.2.2.1
                         width := m.2.2.2
                         transform := m.2.1 }
          data := m.1 }

/-- A trivial instantiation of the rasterio merge collaborator, used only
to evaluate merge_dem_tiles at a concrete input. -/
def constMerge : RasterDS → List RasterDS → (ℕ → ℕ → ℕ → ℚ) × Affine × ℕ × ℕ :=
  fun t _ => (t.data, t.profile.transform, t.profile.height, t.profile.width)

/-! ## GridAligner: resample_raster_to_dem (DEM_prep.py lines 417-454)

  with rasterio.open(dem_tif) as dem:
      dst_crs = dem.crs; dst_transform = dem.transform
      dst_width = dem.width; dst_height = dem.height
      dst_profile = dem.profile.copy()
  with rasterio.open(src_tif) as src:
      dst_profile.update(dtype=src.dtypes[0], count=src.count)
      data = np.zeros((src.count, dst_height, dst_width), dtype=...)
      for i in range(src.count):
          reproject(source=band(src, i+1), destination=data[i],
                    dst_transform=dst_transform, dst_crs=dst_crs, ...)

The destination grid is taken verbatim from the DEM profile; only dtype
and band count are replaced by those of the source.  The bilinear
reprojection of one band is the library collaborator reprojectBand,
passed the source raster, the destination profile and the band index. -/

def resample_raster_to_dem (src dem : RasterDS)
    (reprojectBand : RasterDS → Profile → ℕ → (ℕ → ℕ → ℚ)) : RasterDS :=
  let dst_profile := { dem.profile with
                         dtype := src.profile.dtype
                         count := src.profile.count }
  { profile := dst_profile
    data := fun band row col =>
      if band < src.profile.count ∧ row < dem.profile.height ∧ col < dem.profile.width
      then reprojectBand src dst_profile band row col
      else 0 }

/-! ## MaskRasterizer: create_vector_mask (DEM_prep.py lines 314-348)

  mask_arr = rasterize([(geom, burn_value) for geom in gdf.geometry],
                       out_shape=shape, transform=transform, fill=0,
                       dtype=uint8)
  rgba = np.zeros((4, shape[0], shape[1]), dtype=np.uint8)
  rgba[3] = mask_arr
  profile.update(driver=PNG, dtype=uint8, count=4)

A geometry is modelled by its pixel-coverage predicate on the target grid
(the point-in-polygon test is inside the rasterio collaborator).
rasterio.features.rasterize raises
ValueError: No valid geometry objects found for rasterize
when the shapes iterable yields nothing; otherwise, with the default
merge algorithm, later shapes overwrite earlier ones and uncovered pixels
keep the fill value. -/

def Geom : Type := ℕ → ℕ → Bool

def rasterize (shapes : List (Geom × ℕ)) (fill : ℕ) :
    PyResult (ℕ → ℕ → ℕ) :=
  if shapes.isEmpty then .exn (.valueError .noValidGeometry)
  else .ok (fun row col =>
    shapes.foldl (fun acc s => if s.1 row col then s.2 else acc) fill)

structure MaskRaster where
  profile : Profile
  bands : ℕ → ℕ → ℕ → ℕ

def create_vector_mask (dem : RasterDS) (geoms : List Geom)
    (burn_value : ℕ) : PyResult MaskRaster :=
  match rasterize (geoms.map (fun g => (g, burn_value))) 0 with
  | .exn e => .exn e
  | .ok m =>
    .ok { profile := { dem.profile with dtype := .uint8, count := 4 }
          bands := fun band row col => if band = 3 then m row col else 0 }

/-! ## ImageryClient: get_access_token and download_sentinel_rgb
(sentinel.py lines 63-85 and 102-206)

The network is modelled by inputs describing what the remote ends would
answer (the token endpoint response and the processing endpoint
response), and by an output trace of the I/O events the function
performs, in order: a POST to the token endpoint, a POST to the
processing endpoint carrying the bearer token and the payload, and the
write of the output GeoTIFF.

get_access_token reads SH_CLIENT_ID and SH_CLIENT_SECRET from the
environment; Python truthiness makes both an unset variable and an empty
string count as missing (if not client_id or not client_secret), in
which case RuntimeError is raised before any request.  A rejected
exchange surfaces through r.raise_for_status() as an HTTPError. -/

structure Creds where
  sh_client_id : Option String
  sh_client_secret : Option String
deriving DecidableEq

/-- Python truthiness of an optional environment string: None and the
empty string are both falsy. -/
def falsyEnv : Option String → Bool
  | none => true
  | some s => s.isEmpty

inductive TokenResp where
  | rejected (status : ℕ)
  | granted (token : String)
deriving DecidableEq

/-- The processing endpoint response: either a non-success status with
its reason, body text and whether that body decodes as JSON, or a
success carrying the image bytes. -/
inductive ProcResp where
  | failure (status : ℕ) (reason : String) (body : String) (bodyIsJson : Bool)
  | success (body : String)
deriving DecidableEq

structure ProcessRequest where
  bearer : String
  bbox : ℚ × ℚ × ℚ × ℚ
  width : ℕ
  height : ℕ
deriving DecidableEq

inductive NetEvent where
  | tokenRequest
  | processRequest (req : ProcessRequest)
  | writeFile (path : String)
deriving DecidableEq

def get_access_token (creds : Creds) (resp : TokenResp) :
    PyResult String × List NetEvent :=
  if falsyEnv creds.sh_client_id || falsyEnv creds.sh_client_secret then
    (.exn (.runtimeError .missingCredentials), [])
  else
    match resp with
    | .rejected status => (.exn (.httpError status), [.tokenRequest])
    | .granted token => (.ok token, [.tokenRequest])

/-- raise_sentinel_error (sentinel.py lines 208-250): collects into one
RuntimeError string the HTTP status and reason, the JSON-decoded body
when response.json() succeeds (otherwise the raw text truncated to 2000
characters), and the bbox and output size from the request payload. -/
def raise_sentinel_error (status : ℕ) (reason : String) (body : String)
    (bodyIsJson : Bool) (bbox : ℚ × ℚ × ℚ × ℚ) (width height : ℕ) : PyExn :=
  .sentinelError
    { status := status
      reason := reason
      decodedJson := if bodyIsJson then some body else none
      rawBody := if bodyIsJson then none else some (body.take 2000)
      bbox := bbox
      width := width
      height := height }

/-- download_sentinel_rgb: fetches a token, posts the processing request
with the bearer token, and on a success response streams the body to the
output file; on a non-success response it raises via
raise_sentinel_error before anything is written.  The AOI bbox read from
the GeoPackage is an input here (the vector loader is a collaborator). -/
def download_sentinel_rgb (creds : Creds) (tokResp : TokenResp)
    (bbox : ℚ × ℚ × ℚ × ℚ) (width height : ℕ) (procResp : ProcResp)
    (out_tif : String) : PyResult Unit × List NetEvent :=
  match get_access_token creds tokResp with
  | (.exn e, evs) => (.exn e, evs)
  | (.ok token, evs) =>
    let evs := evs ++ [.processRequest ⟨token, bbox, width, height⟩]
    match procResp with
    | .failure status reason body isJson =>
      (.exn (raise_sentinel_error status reason body isJson bbox width height), evs)
    | .success _ => (.ok (), evs ++ [.writeFile out_tif])

/-! ## Helper lemmas -/

lemma fitStage1_fst_le (width height max_dim : ℕ) :
    (fitStage1 width height max_dim).1 ≤ max_dim := by
  unfold fitStage1
  split
  · exact (by assumption : width ≤ max_dim ∧ height ≤ max_dim).1
  · rcases Nat.eq_zero_or_pos (max width height) with hM | hM
    · simp [hM]
    · calc width * max_dim / max width height
          ≤ max width height * max_dim / max width height :=
            Nat.div_le_div_right (Nat.mul_le_mul_right max_dim (le_max_left width height))
        _ = max_dim := Nat.mul_div_cancel_left max_dim hM

lemma fitStage1_snd_le (width height max_dim : ℕ) :
    (fitStage1 width height max_dim).2 ≤ max_dim := by
  unfold fitStage1
  split
  · exact (by assumption : width ≤ max_dim ∧ height ≤ max_dim).2
  · rcases Nat.eq_zero_or_pos (max width height) with hM | hM
    · simp [hM]
    · calc height * max_dim / max width height
          ≤ max width height * max_dim / max width height :=
            Nat.div_le_div_right (Nat.mul_le_mul_right max_dim (le_max_right width height))
        _ = max_dim := Nat.mul_div_cancel_left max_dim hM

/-- Clamping a natural floor to a minimum of 1 moves it at most one pixel
away from the exact non-negative scaled value. -/
lemma max_one_floor_close (x : ℚ) (hx : 0 ≤ x) :
    |((max 1 ⌊x⌋₊ : ℕ) : ℚ) - x| ≤ 1 := by
  rcases Nat.eq_zero_or_pos ⌊x⌋₊ with h0 | h1
  · have hlt : x < 1 := Nat.floor_eq_zero.mp h0
    rw [h0, show max 1 0 = 1 from rfl]
    rw [abs_le]
    constructor <;> push_cast <;> linarith
  · have hmax : max 1 ⌊x⌋₊ = ⌊x⌋₊ := max_eq_right h1
    rw [hmax, abs_le]
    have hle : (⌊x⌋₊ : ℚ) ≤ x := Nat.floor_le hx
    have hlt : x < ⌊x⌋₊ + 1 := Nat.lt_floor_add_one x
    constructor <;> linarith

/-- Natural division by M is the floor of the exact rational scale. -/
lemma nat_div_eq_floor_scale (n c M : ℕ) :
    n * c / M = ⌊(n : ℚ) * ((c : ℚ) / (M : ℚ))⌋₊ := by
  have : (n : ℚ) * ((c : ℚ) / (M : ℚ)) = ((n * c : ℕ) : ℚ) / (M : ℕ) := by
    push_cast
    ring
  rw [this, Nat.floor_div_nat, Nat.floor_natCast]

/-- Claim C1: for positive input width and height, fit_to_sentinel_limit at
the Sentinel API limits (max_pixels = 10000000, max_dim = 2500) returns a
size with both dimensions at most 2500, total pixels at most 10000000, and
both dimensions within one pixel of the input scaled by one common exact
scale factor; and fit_to_sentinel_limit 4866 3080 10000000 2500 evaluates
to (2500, 1582). -/
theorem fit_to_sentinel_limit_spec (width height : ℕ) (hw : 0 < width) (hh : 0 < height) :
    (∃ a b, fit_to_sentinel_limit width height 10000000 2500 = some (a, b) ∧
      a ≤ 2500 ∧ b ≤ 2500 ∧ a * b ≤ 10000000 ∧
      ∃ s : ℚ, 0 < s ∧ s ≤ 1 ∧
        |(a : ℚ) - width * s| ≤ 1 ∧ |(b : ℚ) - height * s| ≤ 1) ∧
    fit_to_sentinel_limit 4866 3080 10000000 2500 = some (2500, 1582) := by
  constructor
  · have hw1 : (fitStage1 width height 2500).1 ≤ 2500 := fitStage1_fst_le width height 2500
    have hh1 : (fitStage1 width height 2500).2 ≤ 2500 := fitStage1_snd_le width height 2500
    have hpx : ¬ (10000000 < (fitStage1 width height 2500).1 * (fitStage1 width height 2500).2) := by
      have := Nat.mul_le_mul hw1 hh1
      omega
    have hfit : fit_to_sentinel_limit width height 10000000 2500 =
        some (max 1 (fitStage1 width height 2500).1, max 1 (fitStage1 width height 2500).2) := by
      unfold fit_to_sentinel_limit fitStage2
      rw [if_neg (by omega)]
      simp only [if_neg hpx]
    refine ⟨_, _, hfit, ?_, ?_, ?_, ?_⟩
    · exact max_le (by omega) hw1
    · exact max_le (by omega) hh1
    · have := Nat.mul_le_mul (max_le (by omega : 1 ≤ 2500) hw1) (max_le (by omega : 1 ≤ 2500) hh1)
      omega
    · by_cases hsmall : width ≤ 2500 ∧ height ≤ 2500
      · refine ⟨1, one_pos, le_refl 1, ?_, ?_⟩ <;>
          · rw [show fitStage1 width height 2500 = (width, height) by
                unfold fitStage1; rw [if_pos hsmall]]
            simp only [mul_one]
            rw [max_eq_right (by omega)]
            simp
      · have hM : 2500 < max width height := by
          rcases Nat.lt_or_ge 2500 width with h | h
          · exact lt_of_lt_of_le h (le_max_left _ _)
          · rcases Nat.lt_or_ge 2500 height with h2 | h2
            · exact lt_of_lt_of_le h2 (le_max_right _ _)
            · exact absurd ⟨h, h2⟩ hsmall
        have hMpos : (0 : ℚ) < (max width height : ℕ) := by
          have : (0 : ℕ) < max width height := by omega
          exact_mod_cast this
        refine ⟨(2500 : ℚ) / (max width height : ℕ), by positivity, ?_, ?_, ?_⟩
        · rw [div_le_one hMpos]
          exact_mod_cast le_of_lt hM
        · rw [show fitStage1 width height 2500 =
              (width * 2500 / max width height, height * 2500 / max width height) by
              unfold fitStage1; rw [if_neg hsmall]]
          simp only
          rw [nat_div_eq_floor_scale width 2500 (max width height)]
          exact max_one_floor_close _ (by positivity)
        · rw [show fitStage1 width height 2500 =
              (width * 2500 / max width height, height * 2500 / max width height) by
              unfold fitStage1; rw [if_neg hsmall]]
          simp only
          rw [nat_div_eq_floor_scale height 2500 (max width height)]
          exact max_one_floor_close _ (by positivity)
  · decide

/-- Witness for fit_to_sentinel_limit_spec at the concrete input of the
specification example. -/
theorem fit_to_sentinel_limit_spec_witness :
    (∃ a b, fit_to_sentinel_limit 4866 3080 10000000 2500 = some (a, b) ∧
      a ≤ 2500 ∧ b ≤ 2500 ∧ a * b ≤ 10000000 ∧
      ∃ s : ℚ, 0 < s ∧ s ≤ 1 ∧
        |(a : ℚ) - 4866 * s| ≤ 1 ∧ |(b : ℚ) - 3080 * s| ≤ 1) ∧
    fit_to_sentinel_limit 4866 3080 10000000 2500 = some (2500, 1582) :=
  fit_to_sentinel_limit_spec 4866 3080 (by decide) (by decide)

/-- Claim C2 (amended): for every positive width and height and arbitrary
limits, fit_to_sentinel_limit returns a size (it does not raise), and both
returned dimensions are at least 1. -/
theorem fit_to_sentinel_limit_total (width height max_pixels max_dim : ℕ)
    (hw : 0 < width) (hh : 0 < height) :
    ∃ a b, fit_to_sentinel_limit width height max_pixels max_dim = some (a, b) ∧
      1 ≤ a ∧ 1 ≤ b := by
  unfold fit_to_sentinel_limit
  rw [if_neg (by omega)]
  exact ⟨_, _, rfl, le_max_left 1 _, le_max_left 1 _⟩

/-- Witness for fit_to_sentinel_limit_total at a concrete input. -/
theorem fit_to_sentinel_limit_total_witness :
    ∃ a b, fit_to_sentinel_limit 3 4 100 5 = some (a, b) ∧ 1 ≤ a ∧ 1 ≤ b :=
  fit_to_sentinel_limit_total 3 4 100 5 (by decide) (by decide)

/-- Counterexample to claim C2 as stated: at width 0 the Python function
raises ZeroDivisionError (the embedding returns none), so it is not total
on all inputs. -/
theorem fit_to_sentinel_limit_zero_raises :
    fit_to_sentinel_limit 0 17 10000000 2500 = none := by
  decide

/-! ## Normalizer lemmas -/

lemma astypeUint_eq_floor (x : ℚ) : astypeUint x = ⌊x⌋₊ := by
  unfold astypeUint
  exact Int.floor_toNat x

/-- Clipping after scaling by a non-negative constant equals scaling the
unit-clipped value: clip 0 c (x * c) = clip 0 1 x * c. -/
lemma clip_mul_comm (x c : ℚ) (hc : 0 ≤ c) :
    clip 0 c (x * c) = clip 0 1 x * c := by
  unfold clip
  rw [min_mul_of_nonneg _ _ hc, max_mul_of_nonneg _ _ hc, one_mul, zero_mul]

/-- Shared unfolding of the 16-bit exporter on a non-degenerate stretch
range. -/
lemma export_uint16_ok (px : List (Option ℚ)) (pc : Option (ℚ × ℚ)) (vmin vmax : ℚ)
    (hs : stretchRange px pc = (some vmin, some vmax)) (hne : vmin ≠ vmax) :
    export_rendered_dem_uint16 px pc = .ok (px.map (px16 vmin vmax), 0) := by
  unfold export_rendered_dem_uint16
  rw [hs]
  have hbeq : nanEq (some vmin) (some vmax) = false := by
    simp [nanEq, hne]
  simp [hbeq]

/-- Claim C3 (amended): with a non-degenerate computed stretch range, both
quantization paths map a valid pixel v to the floor (truncation), not the
rounding, of clip((v - vmin)/(vmax - vmin), 0, 1) * (2 ^ outBits - 1), map
every NaN pixel to 0, and record 0 as the output no-data sentinel. -/
theorem quantize_truncates :
    (∀ px pc vmin vmax, stretchRange px pc = (some vmin, some vmax) → vmin ≠ vmax →
      export_rendered_dem_uint16 px pc =
        .ok (px.map (fun p => match p with
          | none => 0
          | some v => ⌊clip 0 1 ((v - vmin) / (vmax - vmin)) * 65535⌋₊), 0)) ∧
    (∀ px lo hi vmin vmax,
      nanpercentile px lo = some vmin → nanpercentile px hi = some vmax → vmin ≠ vmax →
      export_rendered_dem px (lo, hi) =
        .ok (px.map (fun p => match p with
          | none => 0
          | some v => ⌊clip 0 1 ((v - vmin) / (vmax - vmin)) * 255⌋₊), 0)) := by
  constructor
  · intro px pc vmin vmax hs hne
    rw [export_uint16_ok px pc vmin vmax hs hne]
    congr 1
    congr 1
    apply List.map_congr_left
    intro p _
    cases p with
    | none => rfl
    | some v =>
      show astypeUint (clip 0 65535 ((v - vmin) / (vmax - vmin) * 65535)) = _
      rw [clip_mul_comm _ 65535 (by norm_num), astypeUint_eq_floor]
  · intro px lo hi vmin vmax hlo hhi hne
    unfold export_rendered_dem
    simp only [hlo, hhi]
    congr 1
    congr 1
    apply List.map_congr_left
    intro p _
    cases p with
    | none => rfl
    | some v =>
      have hne2 : ¬ vmax = vmin := fun h => hne h.symm
      simp only [px8]
      rw [if_neg hne2, astypeUint_eq_floor]

/-- Witness for quantize_truncates: both conjuncts applied at concrete
rasters with concrete stretch ranges. -/
theorem quantize_truncates_witness :
    (export_rendered_dem_uint16 [some 0, some 1] none =
      .ok ([some (0 : ℚ), some 1].map (fun p => match p with
        | none => 0
        | some v => ⌊clip 0 1 ((v - 0) / (1 - 0)) * 65535⌋₊), 0)) ∧
    (export_rendered_dem [some 0, some 1] (0, 100) =
      .ok ([some (0 : ℚ), some 1].map (fun p => match p with
        | none => 0
        | some v => ⌊clip 0 1 ((v - 0) / (1 - 0)) * 255⌋₊), 0)) := by
  constructor
  · exact quantize_truncates.1 [some 0, some 1] none 0 1 (by decide) (by decide)
  · refine quantize_truncates.2 [some 0, some 1] 0 100 0 1 ?_ ?_ (by decide)
    · show (if (0 : ℚ) < 0 ∨ 100 < (0 : ℚ) then none else _) = _
      simp only [show sortQ (validVals [some 0, some 1]) = [0, 1] from by decide]
      norm_num [List.getD]
    · show (if (100 : ℚ) < 0 ∨ 100 < (100 : ℚ) then none else _) = _
      simp only [show sortQ (validVals [some 0, some 1]) = [0, 1] from by decide]
      norm_num [List.getD]

/-- Counterexample to claim C3 as stated: on the raster with valid values
0, 2, 1 and the min/max stretch, the code truncates pixel value 1 to
32767, while the round formula of the claim gives 32768. -/
theorem quantize_round_counterexample :
    export_rendered_dem_uint16 [some 0, some 2, some 1] none = .ok ([0, 65535, 32767], 0) ∧
    specQuantizeValue 0 2 1 16 = 32768 ∧ (32767 : ℕ) ≠ 32768 := by
  refine ⟨?_, ?_, by decide⟩
  · rw [export_uint16_ok [some 0, some 2, some 1] none 0 2 (by decide) (by decide)]
    norm_num [px16, astypeUint, clip]
    decide
  · norm_num [specQuantizeValue, clip, round_eq]

/-- Claim C4 (amended): only the 16-bit quantization path fails on a
degenerate stretch range (vmin equal to vmax over the valid pixels); the
8-bit path performs no such check and always produces an output raster. -/
theorem degenerate_range_only_uint16 :
    (∀ px pc vm, stretchRange px pc = (some vm, some vm) →
      export_rendered_dem_uint16 px pc = .exn (.runtimeError .degenerateRange)) ∧
    (∀ px lohi, ∃ out, export_rendered_dem px lohi = .ok out) := by
  constructor
  · intro px pc vm hs
    unfold export_rendered_dem_uint16
    rw [hs]
    simp [nanEq]
  · intro px lohi
    unfold export_rendered_dem
    cases h1 : nanpercentile px lohi.1 <;> cases h2 : nanpercentile px lohi.2 <;>
      simp [h1, h2]

/-- Witness for degenerate_range_only_uint16: a constant raster makes the
16-bit path raise and the 8-bit path still return an output. -/
theorem degenerate_range_only_uint16_witness :
    export_rendered_dem_uint16 [some 5, some 5] none = .exn (.runtimeError .degenerateRange) ∧
    ∃ out, export_rendered_dem [some 5, some 5] (1/10, 999/10) = .ok out :=
  ⟨degenerate_range_only_uint16.1 [some 5, some 5] none 5 (by decide),
   degenerate_range_only_uint16.2 [some 5, some 5] (1/10, 999/10)⟩

/-- Counterexample to claim C4 as stated: the 8-bit path
(export_rendered_dem) on a degenerate raster of constant value 5 with the
percentile clip (0.1, 99.9) produces an output raster with no-data
sentinel 0 instead of failing with a degenerate-range error. -/
theorem export_rendered_dem_degenerate_ok :
    export_rendered_dem [some 5, some 5] (1/10, 999/10) = .ok ([0, 0], 0) := by
  have h1 : nanpercentile [some 5, some 5] (1/10) = some 5 := by
    show (if (1/10 : ℚ) < 0 ∨ 100 < (1/10 : ℚ) then none else _) = _
    simp only [show sortQ (validVals [some 5, some 5]) = [5, 5] from by decide]
    norm_num [List.getD]
  have h2 : nanpercentile [some 5, some 5] (999/10) = some 5 := by
    show (if (999/10 : ℚ) < 0 ∨ 100 < (999/10 : ℚ) then none else _) = _
    simp only [show sortQ (validVals [some 5, some 5]) = [5, 5] from by decide]
    norm_num [List.getD]
  unfold export_rendered_dem
  simp only [h1, h2]
  decide

/-- Claim C5 (amended): in the quantized 16-bit output the no-data
sentinel is 0 and every valid pixel holding the minimum elevation vmin
also maps to 0, so the sentinel does collide with a valid data value. -/
theorem vmin_maps_to_nodata_sentinel (px : List (Option ℚ)) (vmin vmax : ℚ) (i : ℕ)
    (hmin : listMin (validVals px) = some vmin)
    (hmax : listMax (validVals px) = some vmax)
    (hne : vmin ≠ vmax)
    (hpx : px.getD i none = some vmin) :
    export_rendered_dem_uint16 px none = .ok (px.map (px16 vmin vmax), 0) ∧
    (px.map (px16 vmin vmax)).getD i 1 = 0 := by
  have hs : stretchRange px none = (some vmin, some vmax) := by
    simp [stretchRange, hmin, hmax]
  refine ⟨export_uint16_ok px none vmin vmax hs hne, ?_⟩
  have hsome : px[i]? = some (some vmin) := by
    rcases h : px[i]? with _ | x
    · rw [List.getD_eq_getElem?_getD, h] at hpx
      exact absurd hpx (by simp)
    · rw [List.getD_eq_getElem?_getD, h] at hpx
      simp at hpx
      rw [hpx]
  rw [List.getD_eq_getElem?_getD, List.getElem?_map, hsome]
  show px16 vmin vmax (some vmin) = 0
  simp only [px16]
  rw [sub_self, zero_div, zero_mul]
  norm_num [clip, astypeUint]

/-- Witness for vmin_maps_to_nodata_sentinel at a concrete raster. -/
theorem vmin_maps_to_nodata_sentinel_witness :
    export_rendered_dem_uint16 [some 3, some 7] none =
      .ok ([some (3 : ℚ), some 7].map (px16 3 7), 0) ∧
    ([some (3 : ℚ), some 7].map (px16 3 7)).getD 0 1 = 0 :=
  vmin_maps_to_nodata_sentinel [some 3, some 7] 3 7 0
    (by decide) (by decide) (by decide) (by decide)

/-- Counterexample to claim C5 as stated: the raster with valid values 0
and 2 quantizes to output values 0 and 65535 with no-data sentinel 0, so
the valid minimum pixel (value 0 at index 0) maps to the sentinel value. -/
theorem nodata_collision_counterexample :
    export_rendered_dem_uint16 [some 0, some 2] none = .ok ([0, 65535], 0) ∧
    ([some (0 : ℚ), some 2].getD 0 none).isSome = true := by
  refine ⟨?_, by decide⟩
  rw [export_uint16_ok [some 0, some 2] none 0 2 (by decide) (by decide)]
  norm_num [px16, astypeUint, clip]
  decide

/-- Claim C6 (amended): on an empty tile list merge_dem_tiles raises an
unstructured IndexError (the unchecked first-element access inside the
merge collaborator and in the profile line), and in particular never
returns a raster; there is no dedicated empty-input error. -/
theorem merge_dem_tiles_empty_crashes :
    ∀ rm, merge_dem_tiles [] rm = .exn .indexError ∧
      ∀ r, merge_dem_tiles [] rm ≠ .ok r := by
  intro rm
  exact ⟨rfl, fun r h => by simp [merge_dem_tiles] at h⟩

/-- Counterexample to claim C6 as stated: evaluated at the empty list (with
a trivial instantiation of the merge collaborator) the function raises
IndexError, an unstructured crash, not a structured empty-input error. -/
theorem merge_dem_tiles_empty_eval :
    merge_dem_tiles [] constMerge = .exn .indexError := rfl

lemma download_missing_creds (creds : Creds) (tokResp : TokenResp)
    (bbox : ℚ × ℚ × ℚ × ℚ) (w h : ℕ) (pr : ProcResp) (out : String)
    (hmiss : (falsyEnv creds.sh_client_id || falsyEnv creds.sh_client_secret) = true) :
    download_sentinel_rgb creds tokResp bbox w h pr out =
      (.exn (.runtimeError .missingCredentials), []) := by
  unfold download_sentinel_rgb get_access_token
  rw [if_pos hmiss]

/-- Claim C7: with missing credentials the client raises the RuntimeError
of get_access_token and issues no request at all; with a rejected token
exchange it raises HTTPError having issued only the token request; and in
every run a processing request carries a bearer token that the token
endpoint actually granted. -/
theorem auth_before_process :
    (∀ creds tokResp bbox w h pr out,
      (falsyEnv creds.sh_client_id || falsyEnv creds.sh_client_secret) = true →
      download_sentinel_rgb creds tokResp bbox w h pr out =
        (.exn (.runtimeError .missingCredentials), [])) ∧
    (∀ creds st bbox w h pr out,
      (falsyEnv creds.sh_client_id || falsyEnv creds.sh_client_secret) = false →
      download_sentinel_rgb creds (.rejected st) bbox w h pr out =
        (.exn (.httpError st), [.tokenRequest])) ∧
    (∀ creds tokResp bbox w h pr out req,
      NetEvent.processRequest req ∈ (download_sentinel_rgb creds tokResp bbox w h pr out).2 →
      tokResp = .granted req.bearer) := by
  refine ⟨?_, ?_, ?_⟩
  · exact download_missing_creds
  · intro creds st bbox w h pr out hok
    unfold download_sentinel_rgb get_access_token
    rw [if_neg (by simp [hok])]
  · intro creds tokResp bbox w h pr out req hmem
    by_cases hmiss : (falsyEnv creds.sh_client_id || falsyEnv creds.sh_client_secret) = true
    · rw [download_missing_creds creds tokResp bbox w h pr out hmiss] at hmem
      simp at hmem
    · cases tokResp with
      | rejected st =>
        unfold download_sentinel_rgb get_access_token at hmem
        rw [if_neg hmiss] at hmem
        simp at hmem
      | granted token =>
        unfold download_sentinel_rgb get_access_token at hmem
        rw [if_neg hmiss] at hmem
        cases pr with
        | failure st reason body isJson =>
          simp at hmem
          rw [hmem]
        | success body =>
          simp at hmem
          rw [hmem]

/-- Witness for auth_before_process: with both environment variables unset
the client fails with the missing-credentials RuntimeError and issues no
request. -/
theorem auth_before_process_witness :
    download_sentinel_rgb ⟨none, none⟩ (.rejected 0) (0, 0, 0, 0) 0 0
      (.success default) default =
      (.exn (.runtimeError .missingCredentials), []) :=
  auth_before_process.1 ⟨none, none⟩ (.rejected 0) (0, 0, 0, 0) 0 0
    (.success default) default (by decide)

/-- Sample non-empty credential strings, used only to evaluate the client
at a concrete input. -/
def sampleId : String := "client-id"

def sampleSecret : String := "client-secret"

/-- Claim C8: on a non-success processing response (with valid
credentials and a granted token) the client raises the structured
Sentinel error carrying the HTTP status, the JSON-decoded body when the
body is JSON (the raw text otherwise), and the request bbox and output
size; the event trace contains the token and processing requests and no
file write, so no output artifact is produced. -/
theorem process_failure_structured
    (creds : Creds) (tok : String) (bbox : ℚ × ℚ × ℚ × ℚ) (w h : ℕ)
    (status : ℕ) (reason body : String) (isJson : Bool) (out : String)
    (h1 : falsyEnv creds.sh_client_id = false)
    (h2 : falsyEnv creds.sh_client_secret = false) :
    download_sentinel_rgb creds (.granted tok) bbox w h
      (.failure status reason body isJson) out =
      (.exn (.sentinelError
        { status := status
          reason := reason
          decodedJson := if isJson then some body else none
          rawBody := if isJson then none else some (body.take 2000)
          bbox := bbox
          width := w
          height := h }),
       [.tokenRequest, .processRequest ⟨tok, bbox, w, h⟩]) := by
  unfold download_sentinel_rgb get_access_token raise_sentinel_error
  rw [if_neg (by simp [h1, h2])]
  rfl

/-- Witness for process_failure_structured at a concrete failing
response. -/
theorem process_failure_structured_witness :
    download_sentinel_rgb ⟨some sampleId, some sampleSecret⟩ (.granted default)
      (0, 0, 0, 0) 0 0 (.failure 400 default default true) default =
      (.exn (.sentinelError
        { status := 400
          reason := default
          decodedJson := if true then some default else none
          rawBody := if true then none else some ((default : String).take 2000)
          bbox := (0, 0, 0, 0)
          width := 0
          height := 0 }),
       [.tokenRequest, .processRequest ⟨default, (0, 0, 0, 0), 0, 0⟩]) :=
  process_failure_structured ⟨some sampleId, some sampleSecret⟩ default
    (0, 0, 0, 0) 0 0 400 default default true default (by decide) (by decide)

/-- Claim C9: the raster produced by resample_raster_to_dem has width,
height, CRS and affine transform taken verbatim from the target DEM
raster, for every source raster, target raster and resampling
collaborator, so the aligned imagery shares the exact pixel grid of the
clipped elevation raster. -/
theorem resample_grid_identity :
    ∀ src dem rb,
      (resample_raster_to_dem src dem rb).profile.width = dem.profile.width ∧
      (resample_raster_to_dem src dem rb).profile.height = dem.profile.height ∧
      (resample_raster_to_dem src dem rb).profile.crs = dem.profile.crs ∧
      (resample_raster_to_dem src dem rb).profile.transform = dem.profile.transform :=
  fun _ _ _ => ⟨rfl, rfl, rfl, rfl⟩

/-! ## MaskRasterizer theorems -/

lemma foldl_burn (geoms : List Geom) (bv : ℕ) (r c : ℕ) :
    ∀ acc, (geoms.map (fun g => (g, bv))).foldl
        (fun a s => if s.1 r c then s.2 else a) acc =
      if geoms.any (fun g => g r c) then bv else acc := by
  induction geoms with
  | nil => intro acc; simp
  | cons g gs ih =>
    intro acc
    rw [List.map_cons, List.foldl_cons, List.any_cons, ih]
    cases hg : g r c <;> cases hgs : gs.any (fun g => g r c) <;> simp [hg, hgs]

/-- A concrete raster used only to evaluate functions at concrete
inputs. -/
def demoRaster : RasterDS :=
  { profile :=
      { width := 2
        height := 2
        crs := default
        transform := ⟨1, 0, 0, 0, -1, 0⟩
        dtype := .float32
        count := 1
        nodata := some (-9999) }
    data := fun _ _ _ => 0 }

/-- A geometry covering every pixel, used only for evaluation. -/
def fullCover : Geom := fun _ _ => true

/-- Claim C10 (amended): for a non-empty geometry list create_vector_mask
returns a 4-band RGBA raster on exactly the target grid whose R, G and B
bands are all zero and whose A band holds burn_value on pixels covered by
some geometry and 0 elsewhere; for the empty geometry list the rasterize
collaborator raises ValueError instead of returning an all-zero alpha
mask. -/
theorem create_vector_mask_rgba :
    ∀ dem geoms bv, geoms ≠ [] →
      ∃ m, create_vector_mask dem geoms bv = .ok m ∧
        m.profile.width = dem.profile.width ∧
        m.profile.height = dem.profile.height ∧
        m.profile.transform = dem.profile.transform ∧
        m.profile.crs = dem.profile.crs ∧
        m.profile.count = 4 ∧
        (∀ b r c, b < 3 → m.bands b r c = 0) ∧
        (∀ r c, m.bands 3 r c = if geoms.any (fun g => g r c) then bv else 0) := by
  intro dem geoms bv hne
  have hemp : (geoms.map (fun g => (g, bv))).isEmpty = false := by
    cases geoms with
    | nil => exact absurd rfl hne
    | cons g gs => rfl
  unfold create_vector_mask rasterize
  rw [hemp]
  simp only [Bool.false_eq_true, if_false]
  refine ⟨_, rfl, rfl, rfl, rfl, rfl, rfl, ?_, ?_⟩
  · intro b r c hb
    have : ¬ b = 3 := by omega
    simp [this]
  · intro r c
    simp only [if_pos rfl]
    exact foldl_burn geoms bv r c 0

/-- Witness for create_vector_mask_rgba with one full-cover geometry. -/
theorem create_vector_mask_rgba_witness :
    ∃ m, create_vector_mask demoRaster [fullCover] 255 = .ok m ∧
      m.profile.width = demoRaster.profile.width ∧
      m.profile.height = demoRaster.profile.height ∧
      m.profile.transform = demoRaster.profile.transform ∧
      m.profile.crs = demoRaster.profile.crs ∧
      m.profile.count = 4 ∧
      (∀ b r c, b < 3 → m.bands b r c = 0) ∧
      (∀ r c, m.bands 3 r c = if [fullCover].any (fun g => g r c) then 255 else 0) :=
  create_vector_mask_rgba demoRaster [fullCover] 255 (List.cons_ne_nil _ _)

/-- Counterexample to claim C10 as stated: on the empty geometry list the
function propagates the ValueError that rasterio.features.rasterize raises
(no valid geometry objects), rather than returning an all-zero alpha
channel. -/
theorem create_vector_mask_empty_raises :
    create_vector_mask demoRaster [] 255 = .exn (.valueError .noValidGeometry) := rfl

end Geoblender
